import Mathlib

/-
Verification of the kubevirt machine-api provider reconciliation core.

The definitions below are a shallow embedding of the Go sources:
  pkg/machinescope/machine_scope_creator.go  (machine scope: spec derivation,
    validation, status sync, update-allowed gate)
  pkg/kubevirt (the manager wired in cmd/manager/main.go): Create/Update/
    Delete/Exists and addHostnameToUserData
  pkg/actuator/actuator.go  (actuator facade: events, construction)

Go maps are modelled as association lists with overwrite-on-insert, Go
errors as explicit inductive values, wall-clock time as integer seconds
passed explicitly, and the infrastructure-cluster client as a record of
abstract response functions.
-/

set_option autoImplicit false

namespace KubevirtProvider

/-! ## Association-list maps (model of Go maps) -/

/-- Lookup in a string-keyed map, `m[k]` with the ok flag. -/
def lookupStr (m : List (String × String)) (k : String) : Option String :=
  match m with
  | [] => none
  | (k0, v0) :: rest => if k0 = k then some v0 else lookupStr rest k

/-- Map write `m[k] = v`: overwrite the existing entry or append a new one. -/
def setStr (m : List (String × String)) (k : String) (v : String) :
    List (String × String) :=
  match m with
  | [] => [(k, v)]
  | (k0, v0) :: rest =>
    if k0 = k then (k0, v) :: rest else (k0, v0) :: setStr rest k v

/-! ## Go dynamic values (result of json.Unmarshal into interface-typed data)

`encoding/json` decodes a JSON document into `nil`, `bool`, `float64`,
`string`, `[]interface` or `map[string]interface` values.  The extra
constructor `goFileList` represents a value of the distinct Go type
`[]map[string]interface` which the decoder never produces; only the code
itself creates such a slice.  A Go type assertion distinguishes the two
slice types at run time, so the model keeps them apart. -/

inductive GoVal where
  | null
  | boolean (b : Bool)
  | num (n : Int)
  | str (s : String)
  | arr (elems : List GoVal)
  | obj (fields : List (String × GoVal))
  | goFileList (files : List (List (String × GoVal)))

/-- Lookup in a decoded Go map (`m[k]` with the ok flag). -/
def lookupField (m : List (String × GoVal)) (k : String) : Option GoVal :=
  match m with
  | [] => none
  | (k0, v0) :: rest => if k0 = k then some v0 else lookupField rest k

/-- Map write `m[k] = v` on a decoded Go map. -/
def setField (m : List (String × GoVal)) (k : String) (v : GoVal) :
    List (String × GoVal) :=
  match m with
  | [] => [(k, v)]
  | (k0, v0) :: rest =>
    if k0 = k then (k0, v) :: rest else (k0, v0) :: setField rest k v

/-! ## addHostnameToUserData (pkg/kubevirt, lines 85-109)

The function receives the raw bootstrap payload bytes and calls
`json.Unmarshal` into a `map[string]interface` variable, discarding the
error (line 87).  Unmarshalling yields a non-nil map exactly when the
payload is a JSON object; for any other payload (non-object JSON, invalid
JSON, or JSON null) the map stays nil.  The embedding therefore takes the
decode outcome directly: `some m` for a decoded object, `none` for a nil
map.  A `none` result models abnormal termination (a run-time panic):
writing into the nil map, or a failed interface type assertion. -/

/-- The injected hostname file entry built at lines 95-102. -/
def hostnameFile (hostname : String) : List (String × GoVal) :=
  [("filesystem", GoVal.str "root"),
   ("path", GoVal.str "/etc/hostname"),
   ("mode", GoVal.num 420),
   ("contents", GoVal.obj [("source", GoVal.str ("data:," ++ hostname))])]

/-- Shallow embedding of `addHostnameToUserData`.  Mirrors the source line
by line; each `none` marks a statement that panics in Go. -/
def addHostnameToUserData (dataMap : Option (List (String × GoVal)))
    (hostname : String) : Option (List (String × GoVal)) :=
  match dataMap with
  | none => none
  | some m0 =>
    let m1 := match lookupField m0 "storage" with
      | some _ => m0
      | none => setField m0 "storage" (GoVal.obj [])
    match lookupField m1 "storage" with
    | none => none
    | some storageVal =>
      match storageVal with
      | GoVal.obj storage0 =>
        let storage1 := match lookupField storage0 "files" with
          | some _ => storage0
          | none => setField storage0 "files" (GoVal.goFileList [])
        match lookupField storage1 "files" with
        | none => none
        | some filesVal =>
          match filesVal with
          | GoVal.goFileList files =>
            some (setField m1 "storage"
              (GoVal.obj (setField storage1 "files"
                (GoVal.goFileList (files ++ [hostnameFile hostname])))))
          | _ => none
      | _ => none

/-! ## Data model (pkg/machinescope/machine_scope_creator.go and the structs
it builds)

Namespace fields are written `ns` because `namespace` is reserved in Lean.
Kubernetes resource quantities (memory, CPU, storage) are kept as their
source strings: `apiresource.MustParse` only re-parses them and no claim
depends on quantity normalisation. -/

structure KubevirtMachineProviderSpec where
  sourcePvcName : String
  ignitionSecretName : String
  credentialsSecretName : String
  networkName : String
  requestedMemory : String
  requestedCPU : Int
  requestedStorage : String
  storageClassName : String
  persistentVolumeAccessMode : String
deriving DecidableEq, Repr

/-- A machine network address (corev1.NodeAddress): type and address. -/
structure NodeAddress where
  addressType : String
  address : String
deriving DecidableEq, Repr

/-- The observed VM status pair (kubevirtapiv1.VirtualMachineStatus). -/
structure VirtualMachineStatus where
  created : Bool
  ready : Bool
deriving DecidableEq, Repr

/-- The orchestration-cluster machine resource: the fields the reconciler
reads or writes.  `lastUpdated` is `machine.Status.LastUpdated` in whole
seconds of absolute time; `providerStatus` carries the marshalled observed
VM status (`machine.Status.ProviderStatus`). -/
structure Machine where
  name : String
  ns : String
  labels : List (String × String)
  annotations : List (String × String)
  clusterName : String
  providerID : Option String
  lastUpdated : Option Int
  statusAddresses : List NodeAddress
  providerStatus : Option VirtualMachineStatus
deriving DecidableEq, Repr

/-- The boot-volume source PVC reference (cdiv1.DataVolumeSourcePVC). -/
structure DataVolumeSourcePVC where
  name : String
  ns : String
deriving DecidableEq, Repr

/-- The PVC spec inside the boot-volume template. -/
structure PersistentVolumeClaimSpec where
  accessModes : List String
  requestsStorage : String
  storageClassName : Option String
deriving DecidableEq, Repr

/-- The boot-volume data-volume template (cdiv1.DataVolume). -/
structure DataVolume where
  apiVersion : String
  name : String
  ns : String
  source : DataVolumeSourcePVC
  pvc : PersistentVolumeClaimSpec
deriving DecidableEq, Repr

/-- A disk of the runtime-instance template; `bus` is always "virtio". -/
structure Disk where
  name : String
  bus : String
deriving DecidableEq, Repr

/-- A network interface of the runtime-instance template; `bridge` records
the bridge binding method. -/
structure Interface where
  name : String
  bridge : Bool
deriving DecidableEq, Repr

/-- A volume source: either a data volume or a cloud-init config drive
referencing the ignition secret. -/
inductive VolumeSource where
  | dataVolume (name : String)
  | cloudInitConfigDrive (userDataSecretName : String)
deriving DecidableEq, Repr

structure Volume where
  name : String
  source : VolumeSource
deriving DecidableEq, Repr

/-- A network of the runtime-instance template, bound via Multus. -/
structure Network where
  name : String
  multusNetworkName : String
deriving DecidableEq, Repr

/-- The domain spec: machine type, resource requests (an assoc list with
keys "memory" and "cpu"), disks and interfaces. -/
structure DomainSpec where
  machineType : String
  requests : List (String × String)
  disks : List Disk
  interfaces : List Interface
deriving DecidableEq, Repr

/-- The runtime-instance template
(kubevirtapiv1.VirtualMachineInstanceTemplateSpec). -/
structure VirtualMachineInstanceTemplateSpec where
  labels : List (String × String)
  terminationGracePeriodSecs : Int
  volumes : List Volume
  networks : List Network
  domain : DomainSpec
deriving DecidableEq, Repr

/-- The backing virtual-machine resource.  `resourceVersion` is the
server-assigned version token; OwnerReferences is always nil in the source
and is omitted. -/
structure VirtualMachine where
  apiVersion : String
  kind : String
  name : String
  ns : String
  labels : List (String × String)
  annotations : List (String × String)
  clusterName : String
  resourceVersion : String
  uid : String
  runStrategy : String
  dataVolumeTemplates : List DataVolume
  template : Option VirtualMachineInstanceTemplateSpec
  status : VirtualMachineStatus
deriving DecidableEq, Repr

/-- The runtime instance; the reconciler only reads its name (used as the
internal DNS address). -/
structure VirtualMachineInstance where
  name : String
deriving DecidableEq, Repr

/-- The ignition secret (corev1.Secret); `data` maps the single key
"userdata" to the bootstrap payload. -/
structure Secret where
  name : String
  ns : String
  labels : List (String × String)
  data : List (String × String)
deriving DecidableEq, Repr

/-- The machine scope: one machine's declared configuration plus the two
config-map values, created fresh per reconcile
(machine_scope_creator.go, struct machineScope). -/
structure machineScope where
  machine : Machine
  machineProviderSpec : KubevirtMachineProviderSpec
  infraNamespace : String
  infraID : String
deriving DecidableEq, Repr

/-! ## Constants (machine_scope_creator.go lines 63-84) -/

def vmNotCreated : String := "vmNotCreated"

def vmCreatedNotReady : String := "vmWasCreatedButNotReady"

def vmCreatedAndReady : String := "vmWasCreatedAndReady"

def defaultRequestedMemory : String := "2048M"

def defaultRequestedStorage : String := "35Gi"

def defaultPersistentVolumeAccessMode : String := "ReadWriteMany"

def defaultDataVolumeDiskName : String := "datavolumedisk1"

def defaultCloudInitVolumeDiskName : String := "cloudinitdisk"

def defaultBootVolumeDiskName : String := "bootvolume"

def kubevirtIdAnnotationKey : String := "VmId"

def defaultBus : String := "virtio"

def APIVersion : String := "kubevirt.io/v1alpha3"

def Kind : String := "VirtualMachine"

def mainNetworkName : String := "main"

def terminationGracePeriodSeconds : Int := 600

/-- machinecontroller.MachineInstanceStateAnnotationName; the value is
witnessed by the repository's own sync tests. -/
def MachineInstanceStateAnnotationName : String :=
  "machine.openshift.io/instance-state"

/-- machinecontroller.MachineInstanceTypeLabelName; the value is witnessed
by the repository's own sync tests. -/
def MachineInstanceTypeLabelName : String :=
  "machine.openshift.io/instance-type"

/-! ## Errors

`errMsg` is a plain `fmt.Errorf` error, `invalidMachineConfiguration` a
machinecontroller.InvalidMachineConfiguration, `requeueAfter` a
machinecontroller.RequeueAfterError carrying the delay in seconds. -/

inductive KubevirtError where
  | errMsg (msg : String)
  | invalidMachineConfiguration (msg : String)
  | requeueAfter (seconds : Int)
deriving DecidableEq, Repr

/-- The text produced when an error value is rendered with a `%v` verb. -/
def errText : KubevirtError → String
  | KubevirtError.errMsg m => m
  | KubevirtError.invalidMachineConfiguration m => m
  | KubevirtError.requeueAfter s => "requeue in: " ++ toString s ++ "s"

/-! ## Machine scope operations -/

/-- Modelled from the spec: `utils.BuildLabels` (pkg/utils is not among the
provided sources).  The spec calls the result "a fixed set of ownership
labels keyed by infra cluster id"; the repository's test stubs
(pkg/testutils/stubs.go) show the exact value, a single label
`tenantcluster-<infraID>-machine.openshift.io: owned`. -/
def BuildLabels (infraID : String) : List (String × String) :=
  [("tenantcluster-" ++ infraID ++ "-machine.openshift.io", "owned")]

/-- Validation of the three mandatory provider-spec fields, in source
order (machine_scope_creator.go lines 187-198); `none` means no error. -/
def assertMandatoryParams (s : machineScope) : Option KubevirtError :=
  if s.machineProviderSpec.sourcePvcName = "" then
    some (KubevirtError.invalidMachineConfiguration
      (s.machine.name ++ ": missing value for SourcePvcName"))
  else if s.machineProviderSpec.ignitionSecretName = "" then
    some (KubevirtError.invalidMachineConfiguration
      (s.machine.name ++ ": missing value for IgnitionSecretName"))
  else if s.machineProviderSpec.networkName = "" then
    some (KubevirtError.invalidMachineConfiguration
      (s.machine.name ++ ": missing value for NetworkName"))
  else
    none

def buildBootVolumeName (virtualMachineName : String) : String :=
  virtualMachineName ++ "-" ++ defaultBootVolumeDiskName

def buildIgnitionSecretName (virtualMachineName : String) : String :=
  virtualMachineName ++ "-ignition"

/-- The runtime-instance template derivation
(machine_scope_creator.go lines 200-295).  The namespace parameter is
accepted but unused, as in the source. -/
def buildVMITemplate (s : machineScope) (targetNs : String) :
    VirtualMachineInstanceTemplateSpec :=
  let virtualMachineName := s.machine.name
  let ignitionSecretName := buildIgnitionSecretName virtualMachineName
  let requestedMemory :=
    if s.machineProviderSpec.requestedMemory = "" then defaultRequestedMemory
    else s.machineProviderSpec.requestedMemory
  let requests :=
    if s.machineProviderSpec.requestedCPU != 0 then
      [("memory", requestedMemory), ("cpu", toString s.machineProviderSpec.requestedCPU)]
    else
      [("memory", requestedMemory)]
  let _ := targetNs
  { labels := [("kubevirt.io/vm", virtualMachineName), ("name", virtualMachineName)]
    terminationGracePeriodSecs := terminationGracePeriodSeconds
    volumes := [
      { name := defaultDataVolumeDiskName
        source := VolumeSource.dataVolume (buildBootVolumeName virtualMachineName) },
      { name := defaultCloudInitVolumeDiskName
        source := VolumeSource.cloudInitConfigDrive ignitionSecretName }]
    networks := [
      { name := mainNetworkName
        multusNetworkName := s.machineProviderSpec.networkName }]
    domain := {
      machineType := ""
      requests := requests
      disks := [
        { name := defaultDataVolumeDiskName, bus := defaultBus },
        { name := defaultCloudInitVolumeDiskName, bus := defaultBus }]
      interfaces := [{ name := mainNetworkName, bridge := true }] } }

/-- The boot-volume template derivation
(machine_scope_creator.go lines 347-380). -/
def buildBootVolumeDataVolumeTemplate (virtualMachineName pvcName dvNamespace
    storageClass pvcRequestsStorage accessMode : String) : DataVolume :=
  { apiVersion := "cdi.kubevirt.io/v1alpha1"
    name := buildBootVolumeName virtualMachineName
    ns := dvNamespace
    source := { name := pvcName, ns := dvNamespace }
    pvc := {
      accessModes := [accessMode]
      requestsStorage := pvcRequestsStorage
      storageClassName := if storageClass = "" then none else some storageClass } }

/-- The desired-VM derivation (machine_scope_creator.go lines 123-185):
validate mandatory fields, apply defaults, validate the access mode, build
the VM struct and merge ownership labels with the machine's labels. -/
def CreateVirtualMachineFromMachine (s : machineScope) :
    Except KubevirtError VirtualMachine :=
  match assertMandatoryParams s with
  | some e => Except.error e
  | none =>
    let vmiTemplate := buildVMITemplate s s.infraNamespace
    let pvcRequestsStorage :=
      if s.machineProviderSpec.requestedStorage = "" then defaultRequestedStorage
      else s.machineProviderSpec.requestedStorage
    let accessModeResult : Except KubevirtError String :=
      if s.machineProviderSpec.persistentVolumeAccessMode = "" then
        Except.ok defaultPersistentVolumeAccessMode
      else if s.machineProviderSpec.persistentVolumeAccessMode = "ReadWriteMany" then
        Except.ok "ReadWriteMany"
      else if s.machineProviderSpec.persistentVolumeAccessMode = "ReadOnlyMany" then
        Except.ok "ReadOnlyMany"
      else if s.machineProviderSpec.persistentVolumeAccessMode = "ReadWriteOnce" then
        Except.ok "ReadWriteOnce"
      else
        Except.error (KubevirtError.invalidMachineConfiguration
          (s.machine.name ++
            ": Value of PersistentVolumeAccessMode, can be only one of: ReadWriteMany, ReadOnlyMany, ReadWriteOnce"))
    match accessModeResult with
    | Except.error e => Except.error e
    | Except.ok pvcAccessMode =>
      let mergedLabels :=
        List.foldl (fun acc kv => setStr acc kv.1 kv.2)
          (BuildLabels s.infraID) s.machine.labels
      Except.ok {
        apiVersion := APIVersion
        kind := Kind
        name := s.machine.name
        ns := s.infraNamespace
        labels := mergedLabels
        annotations := s.machine.annotations
        clusterName := s.machine.clusterName
        resourceVersion := ""
        uid := ""
        runStrategy := "Always"
        dataVolumeTemplates := [buildBootVolumeDataVolumeTemplate
          s.machine.name
          s.machineProviderSpec.sourcePvcName
          s.infraNamespace
          s.machineProviderSpec.storageClassName
          pvcRequestsStorage
          pvcAccessMode]
        template := some vmiTemplate
        status := { created := false, ready := false } }

/-- The ignition-secret derivation (machine_scope_creator.go lines
324-341). -/
def CreateIgnitionSecretFromMachine (s : machineScope) (userData : String) :
    Secret :=
  { name := buildIgnitionSecretName s.machine.name
    ns := s.infraNamespace
    labels := BuildLabels s.infraID
    data := [("userdata", userData)] }

/-- The update-allowed gate (machine_scope_creator.go lines 309-314):
`ProviderID != nil && *ProviderID != "" && (LastUpdated == nil ||
LastUpdated.Add(interval).After(now))`.  Wall-clock time is passed
explicitly; `requeueAfterSeconds` and the timestamps are in seconds. -/
def UpdateAllowed (s : machineScope) (requeueAfterSeconds : Int) (now : Int) :
    Bool :=
  match s.machine.providerID, s.machine.lastUpdated with
  | none, _ => false
  | some pid, none => pid != ""
  | some pid, some lu => pid != "" && decide (lu + requeueAfterSeconds > now)

/-- FormatProviderID (pkg/kubevirt lines 238-240); idFormat is
`kubevirt://%s/%s`. -/
def FormatProviderID (ns name : String) : String :=
  "kubevirt://" ++ ns ++ "/" ++ name

/-- Provider-id sync (machine_scope_creator.go lines 390-400): write only
when the current value differs. -/
def syncProviderID (s : machineScope) (providerID : String) : machineScope :=
  match s.machine.providerID with
  | some existing =>
    if existing = providerID then s
    else { s with machine := { s.machine with providerID := some providerID } }
  | none => { s with machine := { s.machine with providerID := some providerID } }

/-- Annotation and label sync (machine_scope_creator.go lines 402-425):
store the VM uid, the machine type when a template is present, and the
three-state instance-state label. -/
def syncMachineAnnotationsAndLabels (s : machineScope) (vm : VirtualMachine) :
    machineScope :=
  let vmState :=
    if vm.status.created then
      if vm.status.ready then vmCreatedAndReady else vmCreatedNotReady
    else vmNotCreated
  let annotations1 := setStr s.machine.annotations kubevirtIdAnnotationKey vm.uid
  let labels1 :=
    match vm.template with
    | some t => setStr s.machine.labels MachineInstanceTypeLabelName t.domain.machineType
    | none => s.machine.labels
  let annotations2 := setStr annotations1 MachineInstanceStateAnnotationName vmState
  { s with machine := { s.machine with labels := labels1, annotations := annotations2 } }

/-- Provider-status sync (machine_scope_creator.go lines 427-437).
RawExtensionFromProviderStatus (pkg/apis, not among the provided sources)
marshals the observed VM status into the opaque provider-status blob; for
the embedded values this JSON marshaling cannot fail, so the sync is
total. -/
def syncProviderStatus (s : machineScope) (vm : VirtualMachine) : machineScope :=
  { s with machine := { s.machine with providerStatus := some vm.status } }

/-- A DNS lookup result entry: a resolved address and whether it is IPv4
(`ip.To4() != nil`). -/
structure DnsIP where
  address : String
  isIPv4 : Bool
deriving DecidableEq, Repr

/-- Network-address sync (machine_scope_creator.go lines 439-452): always
the runtime instance name as internal DNS, then any IPv4 results of a
best-effort forward lookup (`none` models a failed lookup, silently
ignored). -/
def syncNetworkAddresses (s : machineScope) (vmi : VirtualMachineInstance)
    (dnsIPs : Option (List DnsIP)) : machineScope :=
  let ipAddresses :=
    match dnsIPs with
    | none => []
    | some ips =>
      (ips.filter (fun ip => ip.isIPv4)).map
        (fun ip => NodeAddress.mk "InternalIP" ip.address)
  let networkAddresses := NodeAddress.mk "InternalDNS" vmi.name :: ipAddresses
  { s with machine := { s.machine with statusAddresses := networkAddresses } }

/-- SyncMachine (machine_scope_creator.go lines 382-387): provider id, then
annotations and labels, then network addresses, then provider status. -/
def SyncMachine (s : machineScope) (vm : VirtualMachine)
    (vmi : VirtualMachineInstance) (providerID : String)
    (dnsIPs : Option (List DnsIP)) : machineScope :=
  syncProviderStatus
    (syncNetworkAddresses
      (syncMachineAnnotationsAndLabels (syncProviderID s providerID) vm)
      vmi dnsIPs)
    vm

/-! ## The infrastructure-cluster client (external collaborator)

Lookup errors distinguish not-found (errors.IsNotFound) from any other
failure; the carried string is the error text rendered by `%v`. -/

inductive GetErr where
  | notFound (msg : String)
  | other (msg : String)
deriving DecidableEq, Repr

def getErrText : GetErr → String
  | GetErr.notFound m => m
  | GetErr.other m => m

/-- k8smetav1.DeleteOptions: only the grace period is ever set. -/
structure DeleteOptions where
  gracePeriodSeconds : Option Int
deriving DecidableEq, Repr

/-- The infra-cluster client interface (pkg/clients/infracluster), as a
record of abstract response functions.  All calls are keyed by
(namespace, name). -/
structure InfraClusterClient where
  getVirtualMachine : String → String → Except GetErr VirtualMachine
  updateVirtualMachine : String → VirtualMachine → Except String VirtualMachine
  deleteVirtualMachine : String → String → DeleteOptions → Option String
  getVirtualMachineInstance : String → String → Except String VirtualMachineInstance
  createVirtualMachine : String → VirtualMachine → Except String VirtualMachine
  createSecret : String → Secret → Except String Secret

/-! ## VM manager (pkg/kubevirt, the implementation wired in
cmd/manager/main.go) -/

/-- Lines 165-172 of manager.Update: carry the observed version token and
the server-owned status pair from the existing VM onto the desired spec
before the update call. -/
def withObservedVersionAndStatus (desired existing : VirtualMachine) :
    VirtualMachine :=
  { desired with
      resourceVersion := existing.resourceVersion
      status := { created := existing.status.created
                  ready := existing.status.ready } }

/-- manager.syncMachine (pkg/kubevirt lines 197-213): fetch the runtime
instance and sync the machine from the VM and instance.  The inner
SyncMachine is total in the model (its only Go failure source is status
marshaling), so the sync-failure wrap at lines 207-211 is unreachable. -/
def syncMachine (c : InfraClusterClient) (dns : Option (List DnsIP))
    (vm : VirtualMachine) (s : machineScope) (operation : String) :
    Except KubevirtError machineScope :=
  match c.getVirtualMachineInstance vm.ns vm.name with
  | Except.error e =>
    Except.error (KubevirtError.errMsg
      (s.machine.name ++ ": Error during " ++ operation ++
        ": failed to get vmi of the Machine, with error: " ++ e))
  | Except.ok vmi =>
    Except.ok (SyncMachine s vm vmi (FormatProviderID vm.ns vm.name) dns)

/-- manager.Update (pkg/kubevirt lines 148-195): derive the desired VM,
fetch the observed VM (any lookup error is wrapped and returned), carry
over server-owned fields, call update, compare version tokens for
wasUpdated, then sync.  Returns (wasUpdated, error, scope after sync). -/
def managerUpdate (c : InfraClusterClient) (dns : Option (List DnsIP))
    (s : machineScope) : Bool × Option KubevirtError × machineScope :=
  let machineName := s.machine.name
  match CreateVirtualMachineFromMachine s with
  | Except.error e =>
    (false, some (KubevirtError.errMsg
      (machineName ++
        ": Error during Update: failed to build Virtual Machine struct, with error: " ++
        errText e)), s)
  | Except.ok virtualMachineFromMachine =>
    match c.getVirtualMachine virtualMachineFromMachine.ns
        virtualMachineFromMachine.name with
    | Except.error ge =>
      (false, some (KubevirtError.errMsg
        (machineName ++
          ": Error during Update: failed to get Virtual Machine from infraCluster, with error: " ++
          getErrText ge)), s)
    | Except.ok existingVM =>
      let previousResourceVersion := existingVM.resourceVersion
      let toUpdate := withObservedVersionAndStatus virtualMachineFromMachine existingVM
      match c.updateVirtualMachine toUpdate.ns toUpdate with
      | Except.error e =>
        (false, some (KubevirtError.errMsg
          (machineName ++
            ": Error during Update: failed to update Virtual Machine in infraCluster, with error: " ++
            e)), s)
      | Except.ok updatedVM =>
        let currentResourceVersion := updatedVM.resourceVersion
        let wasUpdated := previousResourceVersion != currentResourceVersion
        match syncMachine c dns updatedVM s "Update" with
        | Except.error e => (wasUpdated, some e, s)
        | Except.ok s2 => (wasUpdated, none, s2)

/-- manager.Delete (pkg/kubevirt lines 111-146): not-found on lookup is
success; otherwise delete with a fixed grace period of 10 seconds. -/
def managerDelete (c : InfraClusterClient) (s : machineScope) :
    Option KubevirtError :=
  let machineName := s.machine.name
  match CreateVirtualMachineFromMachine s with
  | Except.error e =>
    some (KubevirtError.errMsg
      (machineName ++
        ": Error during Delete: failed to build Virtual Machine struct, with error: " ++
        errText e))
  | Except.ok virtualMachineFromMachine =>
    match c.getVirtualMachine virtualMachineFromMachine.ns
        virtualMachineFromMachine.name with
    | Except.error (GetErr.notFound _) => none
    | Except.error (GetErr.other m) =>
      some (KubevirtError.errMsg
        (machineName ++
          ": Error during Delete: failed to get Virtual Machine from infraCluster, with error: " ++
          m))
    | Except.ok existingVM =>
      match c.deleteVirtualMachine existingVM.ns existingVM.name
          { gracePeriodSeconds := some 10 } with
      | some m =>
        some (KubevirtError.errMsg
          (machineName ++
            ": Error during Delete: failed to delete Virtual Machine in infraCluster, with error: " ++
            m))
      | none => none

/-- manager.Exists (pkg/kubevirt lines 215-229): not-found maps to
(false, nil), other lookup errors propagate wrapped, found maps to
(true, nil). -/
def managerExists (c : InfraClusterClient)
    (machineName infraNamespace : String) : Bool × Option KubevirtError :=
  match c.getVirtualMachine infraNamespace machineName with
  | Except.error (GetErr.notFound _) => (false, none)
  | Except.error (GetErr.other m) =>
    (false, some (KubevirtError.errMsg
      (machineName ++
        ": Error during Exists: failed to get vm of the Machine, with error: " ++ m)))
  | Except.ok _ => (true, none)

/-! ## Actuator (pkg/actuator/actuator.go) -/

/-- A recorded notification event. -/
structure Event where
  eventType : String
  reason : String
  message : String
deriving DecidableEq, Repr

def updateEventAction : String := "update machine"

/-- handleMachineError (actuator.go lines 99-106): reformat the error with
the machine name and action, emit a warning event tagged
"<action> failed", and return the reformatted error. -/
def handleMachineError (machineName action : String) (e : KubevirtError) :
    KubevirtError × Event :=
  let fullMsg := machineName ++ ": kubevirt wrapper failed to " ++ action ++
    ": " ++ errText e
  (KubevirtError.errMsg fullMsg,
   { eventType := "Warning", reason := action ++ " failed", message := fullMsg })

/-- actuator.Update (actuator.go lines 168-193), given an already-created
machine scope and the outcome of the machine patch (`none` = the patch
succeeded; a patch error replaces the manager error, as at lines
179-182).  Returns the error handed back to the framework and the events
emitted: a warning on any error, a Normal "Updated Machine" event exactly
when the update was not a no-op, nothing otherwise. -/
def actuatorUpdate (c : InfraClusterClient) (dns : Option (List DnsIP))
    (s : machineScope) (patchResult : Option KubevirtError) :
    Option KubevirtError × List Event :=
  let r := managerUpdate c dns s
  let wasUpdated := r.1
  let err := match patchResult with
    | some pe => some pe
    | none => r.2.1
  match err with
  | some e =>
    let he := handleMachineError s.machine.name updateEventAction e
    (some he.1, [he.2])
  | none =>
    if wasUpdated then
      (none, [{ eventType := "Normal", reason := updateEventAction,
                message := "Updated Machine " ++ s.machine.name }])
    else
      (none, [])

/-- The configuration values the actuator extracts at construction. -/
structure ActuatorConfigValues where
  infraID : String
  infraNamespace : String
deriving DecidableEq, Repr

/-- actuator.New (actuator.go lines 64-91), abstracted over the result of
GetConfigMapValue for key "config" of config map
openshift-config/cloud-provider-config.  Mirrors the source exactly,
including the fetch-error branch at lines 70-72, which returns a nil
actuator AND a nil error. -/
def actuatorNew (cMapResult : Except String (List (String × String))) :
    Option ActuatorConfigValues × Option KubevirtError :=
  match cMapResult with
  | Except.error _ => (none, none)
  | Except.ok cMap =>
    match lookupStr cMap "infraID" with
    | none =>
      (none, some (KubevirtError.invalidMachineConfiguration
        "Actuator: configMap openshift-config/cloud-provider-config: The map extracted with key config doesn't contain key infraID"))
    | some infraID =>
      match lookupStr cMap "namespace" with
      | none =>
        (none, some (KubevirtError.invalidMachineConfiguration
          "Actuator: configMap openshift-config/cloud-provider-config: The map extracted with key config doesn't contain key namespace"))
      | some infraNamespace =>
        (some { infraID := infraID, infraNamespace := infraNamespace }, none)

/-! ## The update-allowed gate as the spec words it (for claim C1) -/

/-- The update-allowed gate exactly as the SPEC sentence states it, for
comparison with the source-derived `UpdateAllowed`: true unconditionally
when the provider id is unset or empty; otherwise true when no
last-updated timestamp is recorded or when the elapsed time since
last-updated already exceeds the interval; otherwise false. -/
def UpdateAllowedSpecClaim (s : machineScope) (requeueAfterSeconds : Int)
    (now : Int) : Bool :=
  match s.machine.providerID with
  | none => true
  | some pid =>
    if pid = "" then true
    else
      match s.machine.lastUpdated with
      | none => true
      | some lu => decide (now - lu > requeueAfterSeconds)

/-! ## Concrete values used by witnesses and counterexamples (mirroring
pkg/testutils/stubs.go) -/

def stubProviderSpec : KubevirtMachineProviderSpec :=
  { sourcePvcName := "test-source-pvc-name"
    ignitionSecretName := "test-ignition-secret-name"
    credentialsSecretName := "test-credentials-secret-name"
    networkName := "test-network-name"
    requestedMemory := "123456M"
    requestedCPU := 77
    requestedStorage := "666Gi"
    storageClassName := "test-storage-class"
    persistentVolumeAccessMode := "ReadWriteOnce" }

def stubMachine : Machine :=
  { name := "test-machine-name"
    ns := "test-machine-namespace"
    labels := [("machine.openshift.io/cluster-api-cluster", "test-cluster-id")]
    annotations := []
    clusterName := "test-cluster-name"
    providerID := some "kubevirt"
    lastUpdated := none
    statusAddresses := []
    providerStatus := none }

def stubScope : machineScope :=
  { machine := stubMachine
    machineProviderSpec := stubProviderSpec
    infraNamespace := "test-infra-namespace"
    infraID := "test-infra-id" }

def stubVMI : VirtualMachineInstance := { name := "localhost" }

/-- A concrete observed VM carrying a given version token. -/
def stubVMWithVersion (rv : String) : VirtualMachine :=
  { apiVersion := APIVersion
    kind := Kind
    name := "test-machine-name"
    ns := "test-infra-namespace"
    labels := []
    annotations := []
    clusterName := ""
    resourceVersion := rv
    uid := "test-vm-id"
    runStrategy := "Always"
    dataVolumeTemplates := []
    template := none
    status := { created := true, ready := true } }

/-- A client whose VM lookup succeeds with `existing`, whose update call
returns `updated`, and whose other calls succeed trivially. -/
def stubClientFound (existing updated : VirtualMachine) : InfraClusterClient :=
  { getVirtualMachine := fun _ _ => Except.ok existing
    updateVirtualMachine := fun _ _ => Except.ok updated
    deleteVirtualMachine := fun _ _ _ => none
    getVirtualMachineInstance := fun _ _ => Except.ok stubVMI
    createVirtualMachine := fun _ vm => Except.ok vm
    createSecret := fun _ sec => Except.ok sec }

/-- A client whose VM lookup reports not-found. -/
def stubClientNotFound : InfraClusterClient :=
  { getVirtualMachine := fun _ _ =>
      Except.error (GetErr.notFound "virtualmachines test-machine-name not found")
    updateVirtualMachine := fun _ vm => Except.ok vm
    deleteVirtualMachine := fun _ _ _ => none
    getVirtualMachineInstance := fun _ _ => Except.ok stubVMI
    createVirtualMachine := fun _ vm => Except.ok vm
    createSecret := fun _ sec => Except.ok sec }

/-- A client whose VM lookup fails with a non-not-found error. -/
def stubClientGetError : InfraClusterClient :=
  { getVirtualMachine := fun _ _ => Except.error (GetErr.other "test error")
    updateVirtualMachine := fun _ vm => Except.ok vm
    deleteVirtualMachine := fun _ _ _ => none
    getVirtualMachineInstance := fun _ _ => Except.ok stubVMI
    createVirtualMachine := fun _ vm => Except.ok vm
    createSecret := fun _ sec => Except.ok sec }

/-- The machine payloads used as counterexample and witness inputs. -/
def scopeProviderIDNil : machineScope :=
  { stubScope with machine := { stubMachine with providerID := none } }

def scopeNoSourcePvc : machineScope :=
  { stubScope with machineProviderSpec :=
      { stubProviderSpec with sourcePvcName := "" } }

def scopeNoIgnitionSecret : machineScope :=
  { stubScope with machineProviderSpec :=
      { stubProviderSpec with ignitionSecretName := "" } }

def scopeNoNetwork : machineScope :=
  { stubScope with machineProviderSpec :=
      { stubProviderSpec with networkName := "" } }

/-- A decoded payload never stores a value of the Go-internal slice type
`[]map[string]interface` under storage.files: `json.Unmarshal` decodes
every JSON array as `[]interface`.  Model-level inputs satisfying this
predicate are exactly those reachable from real payload bytes. -/
def noDecodedFileList (m : List (String × GoVal)) : Prop :=
  ∀ sfields files, lookupField m "storage" = some (GoVal.obj sfields) →
    lookupField sfields "files" = some (GoVal.goFileList files) → False

/-! ## Map lemmas -/

theorem lookupStr_setStr_self (m : List (String × String)) (k v : String) :
    lookupStr (setStr m k v) k = some v := by
  induction m with
  | nil => simp [setStr, lookupStr]
  | cons hd tl ih =>
    obtain ⟨k0, v0⟩ := hd
    by_cases hk : k0 = k <;> simp [setStr, lookupStr, hk, ih]

theorem lookupField_setField_self (m : List (String × GoVal)) (k : String)
    (v : GoVal) : lookupField (setField m k v) k = some v := by
  induction m with
  | nil => simp [setField, lookupField]
  | cons hd tl ih =>
    obtain ⟨k0, v0⟩ := hd
    by_cases hk : k0 = k <;> simp [setField, lookupField, hk, ih]

theorem setField_setField_self (m : List (String × GoVal)) (k : String)
    (a b : GoVal) : setField (setField m k a) k b = setField m k b := by
  induction m with
  | nil => simp [setField]
  | cons hd tl ih =>
    obtain ⟨k0, v0⟩ := hd
    by_cases hk : k0 = k <;> simp [setField, hk, ih]

/-! ## Claim C1 -/

/-- Claim C1 counterexample: the claim says the gate "returns true
unconditionally if the machine's provider id is unset or empty", but on a
machine with no provider id the source-derived gate returns false (the
spec-worded gate returns true there).  The repository's own test
"not allowed ProviderID nil" expects false as well. -/
theorem updateAllowed_claim_counterexample :
    UpdateAllowedSpecClaim scopeProviderIDNil 20 100 = true ∧
    UpdateAllowed scopeProviderIDNil 20 100 = false := by
  constructor <;> rfl

/-- Claim C1 (amended): UpdateAllowed returns false when the provider id
is unset or empty; when the provider id is set and non-empty it returns
true exactly when no last-updated timestamp is recorded or the elapsed
time since last-updated is still smaller than the interval. -/
theorem updateAllowed_characterization :
    ∀ (s : machineScope) (iv now : Int),
      UpdateAllowed s iv now = true ↔
        ((∃ pid, s.machine.providerID = some pid ∧ pid ≠ "") ∧
         (s.machine.lastUpdated = none ∨
          ∃ lu, s.machine.lastUpdated = some lu ∧ now - lu < iv)) := by
  intro s iv now
  cases hp : s.machine.providerID with
  | none => simp [UpdateAllowed, hp]
  | some pid =>
    cases hl : s.machine.lastUpdated with
    | none => simp [UpdateAllowed, hp, hl, bne_iff_ne]
    | some lu =>
      simp only [UpdateAllowed, hp, hl, Bool.and_eq_true, bne_iff_ne,
        decide_eq_true_eq, Option.some.injEq]
      constructor
      · rintro ⟨h1, h2⟩
        exact ⟨⟨pid, rfl, h1⟩, Or.inr ⟨lu, rfl, by omega⟩⟩
      · rintro ⟨⟨pid2, hpe, hne⟩, h2⟩
        rcases h2 with h2 | ⟨lu2, hle, hlt⟩
        · exact absurd h2 (by simp)
        · subst hpe
          subst hle
          exact ⟨hne, by omega⟩

/-- Claim C1 witness: the stub machine has a non-empty provider id and no
last-updated timestamp, so the gate allows. -/
theorem updateAllowed_characterization_witness :
    UpdateAllowed stubScope 20 0 = true :=
  (updateAllowed_characterization stubScope 20 0).mpr
    ⟨⟨"kubevirt", rfl, by decide⟩, Or.inl rfl⟩

/-! ## Claim C5 -/

/-- Claim C5: syncing the machine stores a three-state label computed
purely from the observed `{created, ready}` pair in the machine's
instance-state status annotation: vmNotCreated when not created,
vmCreatedNotReady when created but not ready, vmCreatedAndReady when both
hold (the constants' string values are "vmNotCreated",
"vmWasCreatedButNotReady" and "vmWasCreatedAndReady"). -/
theorem syncMachine_stores_instance_state_label :
    ∀ (s : machineScope) (vm : VirtualMachine) (vmi : VirtualMachineInstance)
      (providerID : String) (dnsIPs : Option (List DnsIP)),
      lookupStr (SyncMachine s vm vmi providerID dnsIPs).machine.annotations
          MachineInstanceStateAnnotationName =
        some (if vm.status.created then
                (if vm.status.ready then vmCreatedAndReady else vmCreatedNotReady)
              else vmNotCreated) := by
  intro s vm vmi providerID dnsIPs
  simp only [SyncMachine, syncProviderStatus, syncNetworkAddresses,
    syncMachineAnnotationsAndLabels]
  exact lookupStr_setStr_self _ _ _

/-! ## Claim C6 -/

/-- Claim C6: for every bootstrap payload that is a JSON object with no
"storage" key and every machine name, hostname injection returns the same
JSON extended with storage.files holding exactly one entry: filesystem
"root", path /etc/hostname, mode 420, contents source
`data:,<machine-name>`. -/
theorem addHostname_no_storage_key :
    ∀ (m : List (String × GoVal)) (hostname : String),
      lookupField m "storage" = none →
      addHostnameToUserData (some m) hostname =
        some (setField m "storage"
          (GoVal.obj [("files", GoVal.goFileList [hostnameFile hostname])])) := by
  intro m hostname h
  simp [addHostnameToUserData, h, lookupField_setField_self,
    setField_setField_self, lookupField, setField]

/-- Claim C6 witness: the payload object with the single key "ignition"
and machine name "test-machine-name" yields the same object extended with
the storage.files entry whose contents source is
"data:,test-machine-name". -/
theorem addHostname_no_storage_key_witness :
    lookupField [("ignition", GoVal.obj [])] "storage" = none ∧
    addHostnameToUserData (some [("ignition", GoVal.obj [])]) "test-machine-name" =
      some [("ignition", GoVal.obj []),
            ("storage", GoVal.obj [("files", GoVal.goFileList
              [[("filesystem", GoVal.str "root"),
                ("path", GoVal.str "/etc/hostname"),
                ("mode", GoVal.num 420),
                ("contents", GoVal.obj [("source", GoVal.str "data:,test-machine-name")])]])])] := by
  refine ⟨rfl, ?_⟩
  have h := addHostname_no_storage_key [("ignition", GoVal.obj [])]
    "test-machine-name" rfl
  exact h

/-! ## Claim C10 -/

/-- Claim C10: addHostnameToUserData is not total: it ignores the JSON
decode error, so a non-object payload (nil decoded map) panics, a payload
whose top-level object already holds a storage.files array panics on the
slice type assertion, and a normal return happens only for JSON-object
payloads without a pre-existing storage.files entry. -/
theorem addHostname_partiality :
    (∀ hostname, addHostnameToUserData none hostname = none) ∧
    (∀ (m sfields : List (String × GoVal)) (files : List GoVal) (hostname : String),
       lookupField m "storage" = some (GoVal.obj sfields) →
       lookupField sfields "files" = some (GoVal.arr files) →
       addHostnameToUserData (some m) hostname = none) ∧
    (∀ (m result : List (String × GoVal)) (hostname : String),
       addHostnameToUserData (some m) hostname = some result →
       noDecodedFileList m →
       lookupField m "storage" = none ∨
       ∃ sfields, lookupField m "storage" = some (GoVal.obj sfields) ∧
         lookupField sfields "files" = none) := by
  refine ⟨fun _ => rfl, ?_, ?_⟩
  · intro m sfields files hostname h1 h2
    simp [addHostnameToUserData, h1, h2]
  · intro m result hostname heq hdec
    cases hs : lookupField m "storage" with
    | none => exact Or.inl rfl
    | some sv =>
      cases sv with
      | obj sfields =>
        cases hf : lookupField sfields "files" with
        | none => exact Or.inr ⟨sfields, rfl, hf⟩
        | some fv =>
          cases fv with
          | goFileList gl => exact (hdec sfields gl hs hf).elim
          | null => simp [addHostnameToUserData, hs, hf] at heq
          | boolean b => simp [addHostnameToUserData, hs, hf] at heq
          | num n => simp [addHostnameToUserData, hs, hf] at heq
          | str s2 => simp [addHostnameToUserData, hs, hf] at heq
          | arr es => simp [addHostnameToUserData, hs, hf] at heq
          | obj fs => simp [addHostnameToUserData, hs, hf] at heq
      | null => simp [addHostnameToUserData, hs] at heq
      | boolean b => simp [addHostnameToUserData, hs] at heq
      | num n => simp [addHostnameToUserData, hs] at heq
      | str s2 => simp [addHostnameToUserData, hs] at heq
      | arr es => simp [addHostnameToUserData, hs] at heq
      | goFileList gl => simp [addHostnameToUserData, hs] at heq

/-- Claim C10 witness: a nil decoded map (non-object payload) panics; an
object already holding a storage.files array panics; and the success case
of the only-direction holds at a concrete object payload. -/
theorem addHostname_partiality_witness :
    addHostnameToUserData none "x" = none ∧
    addHostnameToUserData
      (some [("storage", GoVal.obj [("files", GoVal.arr [])])]) "x" = none ∧
    (lookupField [("ignition", GoVal.obj [])] "storage" = none ∨
     ∃ sfields, lookupField [("ignition", GoVal.obj [])] "storage" =
         some (GoVal.obj sfields) ∧ lookupField sfields "files" = none) := by
  refine ⟨addHostname_partiality.1 "x",
    addHostname_partiality.2.1 [("storage", GoVal.obj [("files", GoVal.arr [])])]
      [("files", GoVal.arr [])] [] "x" rfl rfl,
    addHostname_partiality.2.2 [("ignition", GoVal.obj [])] _ "x" rfl ?_⟩
  intro sfields files hcontra
  simp [lookupField] at hcontra

/-! ## Claim C2 -/

/-- Claim C2 counterexample: on a machine whose gate allows (provider id
set, no last-updated timestamp), a not-found VM lookup during Update does
NOT produce the requeue-after-20-seconds signal the claim requires: the
manager returns false with a bare wrapped lookup error. -/
theorem update_notFound_counterexample :
    UpdateAllowed stubScope 20 0 = true ∧
    managerUpdate stubClientNotFound none stubScope =
      (false, some (KubevirtError.errMsg
        "test-machine-name: Error during Update: failed to get Virtual Machine from infraCluster, with error: virtualmachines test-machine-name not found"),
       stubScope) ∧
    (managerUpdate stubClientNotFound none stubScope).2.1 ≠
      some (KubevirtError.requeueAfter 20) ∧
    (managerUpdate stubClientNotFound none stubScope).2.1 ≠
      some (KubevirtError.requeueAfter 180) := by
  refine ⟨rfl, rfl, ?_, ?_⟩ <;> decide

/-- Claim C2 (amended): when Update's lookup of the backing VM fails —
including the not-found case — the manager in use (pkg/kubevirt) returns
false together with a wrapped lookup-error message; it does not consult
the update-allowed gate and never converts the failure into a
requeue-after signal. -/
theorem update_lookup_error_returns_wrapped_error :
    ∀ (c : InfraClusterClient) (dns : Option (List DnsIP)) (s : machineScope)
      (dvm : VirtualMachine) (ge : GetErr),
      CreateVirtualMachineFromMachine s = Except.ok dvm →
      c.getVirtualMachine dvm.ns dvm.name = Except.error ge →
      managerUpdate c dns s =
        (false, some (KubevirtError.errMsg
          (s.machine.name ++
            ": Error during Update: failed to get Virtual Machine from infraCluster, with error: " ++
            getErrText ge)), s) := by
  intro c dns s dvm ge h1 h2
  simp only [managerUpdate, h1, h2]

/-- Claim C2 witness: a concrete failing lookup instantiating the amended
theorem. -/
theorem update_lookup_error_witness :
    managerUpdate stubClientGetError none stubScope =
      (false, some (KubevirtError.errMsg
        "test-machine-name: Error during Update: failed to get Virtual Machine from infraCluster, with error: test error"),
       stubScope) := by
  have h := update_lookup_error_returns_wrapped_error stubClientGetError none
    stubScope _ (GetErr.other "test error") rfl rfl
  exact h.trans (by decide)

/-! ## Claim C3 -/

/-- Claim C3 (code bug in the source): when the config-map fetch itself
fails, actuator.New returns a nil actuator AND a nil error — lines 70-72
of actuator.go discard the fetch error — contradicting the claim that
construction never returns both nil; the two missing-key cases do return
configuration errors as claimed. -/
theorem actuatorNew_fetch_error_nil_nil :
    actuatorNew (Except.error "test error") = (none, none) ∧
    (actuatorNew (Except.ok [("namespace", "test-infra-namespace")])).2 =
      some (KubevirtError.invalidMachineConfiguration
        "Actuator: configMap openshift-config/cloud-provider-config: The map extracted with key config doesn't contain key infraID") ∧
    (actuatorNew (Except.ok [("infraID", "test-infra-id")])).2 =
      some (KubevirtError.invalidMachineConfiguration
        "Actuator: configMap openshift-config/cloud-provider-config: The map extracted with key config doesn't contain key namespace") :=
  ⟨rfl, rfl, rfl⟩

/-! ## Claim C4 -/

/-- Claim C4: on a successful Update, wasUpdated is true exactly when the
version token returned by the update call differs from the token observed
before it, and the actuator emits the Normal "Updated Machine"
notification exactly when wasUpdated is true — no notification on a no-op
update. -/
theorem update_wasUpdated_iff_version_changed :
    ∀ (c : InfraClusterClient) (dns : Option (List DnsIP)) (s : machineScope)
      (dvm existingVM updatedVM : VirtualMachine) (vmi : VirtualMachineInstance),
      CreateVirtualMachineFromMachine s = Except.ok dvm →
      c.getVirtualMachine dvm.ns dvm.name = Except.ok existingVM →
      c.updateVirtualMachine (withObservedVersionAndStatus dvm existingVM).ns
          (withObservedVersionAndStatus dvm existingVM) = Except.ok updatedVM →
      c.getVirtualMachineInstance updatedVM.ns updatedVM.name = Except.ok vmi →
      ((managerUpdate c dns s).1 = true ↔
        existingVM.resourceVersion ≠ updatedVM.resourceVersion) ∧
      (managerUpdate c dns s).2.1 = none ∧
      (actuatorUpdate c dns s none).2 =
        (if existingVM.resourceVersion ≠ updatedVM.resourceVersion then
          [{ eventType := "Normal", reason := updateEventAction,
             message := "Updated Machine " ++ s.machine.name }]
         else []) := by
  intro c dns s dvm evm uvm vmi h1 h2 h3 h4
  have key : managerUpdate c dns s =
      ((evm.resourceVersion != uvm.resourceVersion), none,
        SyncMachine s uvm vmi (FormatProviderID uvm.ns uvm.name) dns) := by
    simp only [managerUpdate, h1, h2, h3, syncMachine, h4]
  refine ⟨?_, ?_, ?_⟩
  · rw [key]
    simp [bne_iff_ne]
  · rw [key]
  · simp only [actuatorUpdate, key]
    by_cases hv : evm.resourceVersion = uvm.resourceVersion
    · simp [hv]
    · simp [hv, bne_iff_ne]

/-- Claim C4 witness: observed token "1234", post-update token "12345" —
wasUpdated is true and exactly one Normal "Updated Machine" event is
emitted. -/
theorem update_wasUpdated_witness :
    (managerUpdate
      (stubClientFound (stubVMWithVersion "1234") (stubVMWithVersion "12345"))
      none stubScope).1 = true ∧
    (actuatorUpdate
      (stubClientFound (stubVMWithVersion "1234") (stubVMWithVersion "12345"))
      none stubScope none).2 =
      [{ eventType := "Normal", reason := updateEventAction,
         message := "Updated Machine test-machine-name" }] := by
  have h := update_wasUpdated_iff_version_changed
    (stubClientFound (stubVMWithVersion "1234") (stubVMWithVersion "12345"))
    none stubScope _ (stubVMWithVersion "1234") (stubVMWithVersion "12345")
    stubVMI rfl rfl rfl rfl
  exact ⟨h.1.mpr (by decide), h.2.2.trans (by decide)⟩

/-! ## Claim C7 -/

/-- Claim C7: the desired-VM derivation is a pure function of the machine,
its provider configuration, the infra namespace and the infra cluster id:
any two scopes agreeing on those four inputs derive identical VM
specifications, so repeated calls on unchanged inputs yield identical
output (no hidden state, no randomness). -/
theorem createVM_deterministic :
    ∀ (s1 s2 : machineScope),
      s1.machine = s2.machine →
      s1.machineProviderSpec = s2.machineProviderSpec →
      s1.infraNamespace = s2.infraNamespace →
      s1.infraID = s2.infraID →
      CreateVirtualMachineFromMachine s1 = CreateVirtualMachineFromMachine s2 := by
  intro s1 s2 h1 h2 h3 h4
  cases s1
  cases s2
  simp_all

/-- Claim C7 witness: the derivation applied twice to the stub
configuration. -/
theorem createVM_deterministic_witness :
    CreateVirtualMachineFromMachine stubScope =
      CreateVirtualMachineFromMachine stubScope :=
  createVM_deterministic stubScope stubScope rfl rfl rfl rfl

/-! ## Claim C8 -/

/-- Claim C8: deriving the VM spec checks source-volume name, then
ignition-secret name, then network name; whichever is empty first produces
a configuration error naming exactly that field. -/
theorem mandatoryParams_first_missing_field :
    ∀ s : machineScope,
      (s.machineProviderSpec.sourcePvcName = "" →
        CreateVirtualMachineFromMachine s = Except.error
          (KubevirtError.invalidMachineConfiguration
            (s.machine.name ++ ": missing value for SourcePvcName"))) ∧
      (s.machineProviderSpec.sourcePvcName ≠ "" →
       s.machineProviderSpec.ignitionSecretName = "" →
        CreateVirtualMachineFromMachine s = Except.error
          (KubevirtError.invalidMachineConfiguration
            (s.machine.name ++ ": missing value for IgnitionSecretName"))) ∧
      (s.machineProviderSpec.sourcePvcName ≠ "" →
       s.machineProviderSpec.ignitionSecretName ≠ "" →
       s.machineProviderSpec.networkName = "" →
        CreateVirtualMachineFromMachine s = Except.error
          (KubevirtError.invalidMachineConfiguration
            (s.machine.name ++ ": missing value for NetworkName"))) := by
  intro s
  refine ⟨?_, ?_, ?_⟩
  · intro h
    simp [CreateVirtualMachineFromMachine, assertMandatoryParams, h]
  · intro h1 h2
    simp [CreateVirtualMachineFromMachine, assertMandatoryParams, h1, h2]
  · intro h1 h2 h3
    simp [CreateVirtualMachineFromMachine, assertMandatoryParams, h1, h2, h3]

/-- Claim C8 witness: three concrete configurations, each with exactly one
of the mandatory fields empty, each yielding the error that names that
field. -/
theorem mandatoryParams_witness :
    CreateVirtualMachineFromMachine scopeNoSourcePvc = Except.error
      (KubevirtError.invalidMachineConfiguration
        "test-machine-name: missing value for SourcePvcName") ∧
    CreateVirtualMachineFromMachine scopeNoIgnitionSecret = Except.error
      (KubevirtError.invalidMachineConfiguration
        "test-machine-name: missing value for IgnitionSecretName") ∧
    CreateVirtualMachineFromMachine scopeNoNetwork = Except.error
      (KubevirtError.invalidMachineConfiguration
        "test-machine-name: missing value for NetworkName") := by
  refine ⟨((mandatoryParams_first_missing_field scopeNoSourcePvc).1 rfl).trans (by rfl),
    ((mandatoryParams_first_missing_field scopeNoIgnitionSecret).2.1 (by decide) rfl).trans (by rfl),
    ((mandatoryParams_first_missing_field scopeNoNetwork).2.2 (by decide) (by decide) rfl).trans (by rfl)⟩

/-! ## Claim C9 -/

/-- Claim C9: a not-found VM lookup makes Delete succeed and Exists return
(false, nil); a found VM makes Delete issue the deletion with the fixed
10-second grace period (propagating its outcome) and Exists return
(true, nil); any other lookup error propagates as a wrapped error from
both. -/
theorem delete_exists_not_found_semantics :
    ∀ (c : InfraClusterClient) (s : machineScope) (dvm : VirtualMachine)
      (vmName infraNs : String),
      CreateVirtualMachineFromMachine s = Except.ok dvm →
      ((∀ m, c.getVirtualMachine dvm.ns dvm.name = Except.error (GetErr.notFound m) →
          managerDelete c s = none) ∧
       (∀ m, c.getVirtualMachine infraNs vmName = Except.error (GetErr.notFound m) →
          managerExists c vmName infraNs = (false, none)) ∧
       (∀ vm, c.getVirtualMachine dvm.ns dvm.name = Except.ok vm →
          managerDelete c s =
            (match c.deleteVirtualMachine vm.ns vm.name { gracePeriodSeconds := some 10 } with
             | some m => some (KubevirtError.errMsg
                 (s.machine.name ++
                   ": Error during Delete: failed to delete Virtual Machine in infraCluster, with error: " ++ m))
             | none => none)) ∧
       (∀ vm, c.getVirtualMachine infraNs vmName = Except.ok vm →
          managerExists c vmName infraNs = (true, none)) ∧
       (∀ m, c.getVirtualMachine dvm.ns dvm.name = Except.error (GetErr.other m) →
          managerDelete c s = some (KubevirtError.errMsg
            (s.machine.name ++
              ": Error during Delete: failed to get Virtual Machine from infraCluster, with error: " ++ m))) ∧
       (∀ m, c.getVirtualMachine infraNs vmName = Except.error (GetErr.other m) →
          managerExists c vmName infraNs = (false, some (KubevirtError.errMsg
            (vmName ++
              ": Error during Exists: failed to get vm of the Machine, with error: " ++ m))))) := by
  intro c s dvm vmName infraNs h1
  refine ⟨?_, ?_, ?_, ?_, ?_, ?_⟩ <;> intro x hx <;>
    simp [managerDelete, managerExists, h1, hx]

/-- Claim C9 witness: concrete clients exercising the not-found, found and
other-error branches of Delete and Exists. -/
theorem delete_exists_witness :
    managerDelete stubClientNotFound stubScope = none ∧
    managerExists stubClientNotFound "test-machine-name" "test-infra-namespace" =
      (false, none) ∧
    managerDelete (stubClientFound (stubVMWithVersion "1234") (stubVMWithVersion "1234"))
      stubScope = none ∧
    managerExists (stubClientFound (stubVMWithVersion "1234") (stubVMWithVersion "1234"))
      "test-machine-name" "test-infra-namespace" = (true, none) ∧
    managerExists stubClientGetError "test-machine-name" "test-infra-namespace" =
      (false, some (KubevirtError.errMsg
        "test-machine-name: Error during Exists: failed to get vm of the Machine, with error: test error")) := by
  have h := delete_exists_not_found_semantics stubClientNotFound stubScope _
    "test-machine-name" "test-infra-namespace" rfl
  have h2 := delete_exists_not_found_semantics
    (stubClientFound (stubVMWithVersion "1234") (stubVMWithVersion "1234"))
    stubScope _ "test-machine-name" "test-infra-namespace" rfl
  have h3 := delete_exists_not_found_semantics stubClientGetError stubScope _
    "test-machine-name" "test-infra-namespace" rfl
  exact ⟨h.1 _ rfl, h.2.1 _ rfl,
    (h2.2.2.1 (stubVMWithVersion "1234") rfl).trans (by decide),
    h2.2.2.2.1 _ rfl,
    (h3.2.2.2.2.2 "test error" rfl).trans (by decide)⟩

end KubevirtProvider
